import Mathlib

/-!
Verification of the habit-tracker completion pipeline.

Shallow embedding of the core algorithms of the repository:
streak calculation (src/core/events/handlers.py), milestone lookup and
point awarding (same file), the event dispatcher
(src/core/events/dispatcher.py), queue-message validation and the
per-message worker pipeline (src/infrastructure/aws/worker.py), the
weekly report builder (src/infrastructure/pdf/reports_service.py) and
the PDF buffer handling (src/infrastructure/pdf/report_pdf.py,
src/infrastructure/aws/s3_client.py, src/infrastructure/aws/email_client.py).

Calendar dates are modelled as integers (day ordinals), so that the
Python expression date(i) - date(i+1) == timedelta(days=1) becomes
an integer difference.
-/

/-! ## Streak calculator (handlers.check_habit_consecutive_days) -/

/--
Walk of the adjacent pairs of the completion-date list, with prev the
date of the previous element.  Mirrors the loop body of
check_habit_consecutive_days: a difference of exactly one day adds one,
a difference of zero days is skipped (continue), anything else breaks.
Returns the number of increments performed before the walk ends.
-/
def streakWalk : Int → List Int → Nat
  | _, [] => 0
  | prev, d :: rest =>
    if prev - d = 1 then 1 + streakWalk d rest
    else if prev - d = 0 then streakWalk d rest
    else 0

/--
check_habit_consecutive_days from src/core/events/handlers.py, on the
list of calendar dates (completed_at.date()) of the completions,
ordered most recent first.  streak starts at 1 and the loop walks the
adjacent pairs.
-/
def check_habit_consecutive_days : List Int → Nat
  | [] => 1
  | d :: rest => 1 + streakWalk d rest

theorem streakWalk_chain (l : List Int) : ∀ prev : Int,
    List.Chain' (fun x y => x - y = 1) (prev :: l) → streakWalk prev l = l.length := by
  induction l with
  | nil => intro prev _; rfl
  | cons d rest ih =>
    intro prev h
    rw [List.chain'_cons] at h
    simp [streakWalk, h.1, ih d h.2]
    omega

theorem streakWalk_stop (a b : Int) (l2 : List Int) (h1 : a - b ≠ 1) (h0 : a - b ≠ 0) :
    streakWalk a (b :: l2) = 0 := by
  simp [streakWalk, h1, h0]

theorem streakWalk_chain_stop (a b : Int) (l2 : List Int)
    (h1 : a - b ≠ 1) (h0 : a - b ≠ 0) : ∀ (l1 : List Int) (prev : Int),
    List.Chain' (fun x y => x - y = 1) (prev :: (l1 ++ [a])) →
    streakWalk prev (l1 ++ a :: b :: l2) = l1.length + 1 := by
  intro l1
  induction l1 with
  | nil =>
    intro prev h
    rw [List.nil_append] at h
    rw [List.chain'_cons] at h
    simp [streakWalk, h.1, h1, h0]
  | cons c t ih =>
    intro prev h
    rw [List.cons_append] at h
    rw [List.chain'_cons] at h
    simp [List.cons_append, streakWalk, h.1, ih c h.2]
    omega

/--
Claim C2: check_habit_consecutive_days starts at streak 1 and walks the
adjacent pairs of the date-descending completion list, incrementing on a
one-day difference, skipping a zero-day difference and stopping
otherwise.  Consequently (first conjunct) a singleton list gives 1,
(second conjunct) a list in which every adjacent pair of dates differs
by exactly one day yields the list length, and (third conjunct) when
the pairs at indices 0 .. k-1 (the adjacent pairs inside l1 ++ [a],
with k = l1.length) each differ by exactly one day and the pair at
index k, namely (a, b), differs by anything other than zero or one
days, the result is k + 1.
-/
theorem check_habit_consecutive_days_spec :
    (∀ d : Int, check_habit_consecutive_days [d] = 1) ∧
    (∀ l : List Int, l ≠ [] → List.Chain' (fun x y => x - y = 1) l →
      check_habit_consecutive_days l = l.length) ∧
    (∀ (l1 : List Int) (a b : Int) (l2 : List Int),
      List.Chain' (fun x y => x - y = 1) (l1 ++ [a]) →
      a - b ≠ 1 → a - b ≠ 0 →
      check_habit_consecutive_days (l1 ++ a :: b :: l2) = l1.length + 1) := by
  refine ⟨fun d => rfl, ?_, ?_⟩
  · intro l hne hchain
    match l, hne with
    | d :: rest, _ =>
      simp [check_habit_consecutive_days, streakWalk_chain rest d hchain]
      omega
  · intro l1 a b l2 hchain h1 h0
    match l1 with
    | [] =>
      simp [check_habit_consecutive_days, streakWalk_stop a b l2 h1 h0]
    | c :: t =>
      rw [List.cons_append] at hchain
      simp only [List.cons_append, check_habit_consecutive_days]
      rw [streakWalk_chain_stop a b l2 h1 h0 t c hchain]
      simp
      omega

/--
Witness for C2: the all-consecutive list [10, 9, 8] has streak 3 (its
length), and the list [10, 9, 5, 4], whose first out-of-range gap is at
pair index 1, has streak 2.
-/
theorem check_habit_consecutive_days_spec_witness :
    check_habit_consecutive_days [10, 9, 8] = 3 ∧
    check_habit_consecutive_days [10, 9, 5, 4] = 2 := by
  constructor
  · exact check_habit_consecutive_days_spec.2.1 [10, 9, 8] (by decide)
      (by simp [List.chain'_cons])
  · exact check_habit_consecutive_days_spec.2.2 [10] 9 5 [4]
      (by simp [List.chain'_cons]) (by decide) (by decide)

theorem streakWalk_dup (a : Int) (l2 : List Int) : ∀ (l1 : List Int) (prev : Int),
    streakWalk prev (l1 ++ a :: a :: l2) = streakWalk prev (l1 ++ a :: l2) := by
  intro l1
  induction l1 with
  | nil =>
    intro prev
    by_cases h1 : prev - a = 1
    · simp [streakWalk, h1]
    · by_cases h0 : prev - a = 0
      · simp [streakWalk, h1, h0]
      · simp [streakWalk, h1, h0]
  | cons c t ih =>
    intro prev
    simp only [List.cons_append, streakWalk, List.append_eq]
    rw [ih c]

/--
Claim C9: on a completion list ordered by date descending, inserting an
additional completion whose calendar date equals that of an adjacent
element (a same-day duplicate, preserving the order) leaves the result
of check_habit_consecutive_days unchanged.  The list with the duplicate
is l1 ++ a :: a :: l2, the original is l1 ++ a :: l2 (non-empty since it
contains a).
-/
theorem streak_same_day_duplicate_invariant (l1 l2 : List Int) (a : Int)
    (_hdesc : List.Chain' (fun x y => x ≥ y) (l1 ++ a :: l2)) :
    check_habit_consecutive_days (l1 ++ a :: a :: l2) =
      check_habit_consecutive_days (l1 ++ a :: l2) := by
  match l1 with
  | [] =>
    simp [check_habit_consecutive_days, streakWalk]
  | c :: t =>
    simp only [List.cons_append, check_habit_consecutive_days]
    rw [streakWalk_dup a l2 t c]

/--
Witness for C9: inserting a duplicate of the date 4 into the descending
list [5, 4, 3] leaves the streak at 3.
-/
theorem streak_same_day_duplicate_invariant_witness :
    check_habit_consecutive_days [5, 4, 4, 3] = check_habit_consecutive_days [5, 4, 3] := by
  exact streak_same_day_duplicate_invariant [5] [3] 4
    (by simp [List.chain'_cons])

/-! ## Event bus (dispatcher.dispatch) -/

/-- Event types of the closed tagged union in src/core/events/events.py. -/
inductive EvType where
  | habitCompleted
  | achievementUnlocked
deriving DecidableEq

/-- An event, reduced to the runtime type the dispatcher looks up. -/
structure EventM where
  etype : EvType

/--
A handler registered in event_registry: its identity (function name, as
logged by the dispatcher) and its body, whose outcome is either normal
completion or a raised exception message.
-/
structure Handler where
  name : String
  run : EventM → Except String Unit

/-- The event registry: a table from event type to handler list. -/
abbrev Registry := List (EvType × List Handler)

/-- event_registry.get(event_type, []) of dispatcher.dispatch. -/
def handlersFor (reg : Registry) (t : EvType) : List Handler :=
  match List.lookup t reg with
  | some hs => hs
  | none => []

/--
Record of one handler invocation performed by dispatch: the handler
identity and, when the handler raised, the logged exception message.
-/
structure CallRecord where
  handler : String
  failed : Option String
deriving DecidableEq

/--
The for-loop of dispatch: each handler is awaited in turn; an exception
is caught by the try/except, logged with the handler identity, and the
loop continues with the next handler.
-/
def runHandlers (e : EventM) : List Handler → List CallRecord
  | [] => []
  | h :: rest =>
    match h.run e with
    | .ok _ => ⟨h.name, none⟩ :: runHandlers e rest
    | .error msg => ⟨h.name, some msg⟩ :: runHandlers e rest

/--
dispatch from src/core/events/dispatcher.py: look up the handlers for
the event type; if there are none, return immediately; otherwise run
every handler sequentially, catching and logging failures.  The return
type (a plain call trace, not an exception result) reflects that
dispatch itself never raises.
-/
def dispatch (reg : Registry) (event : EventM) : List CallRecord :=
  let handlers := handlersFor reg event.etype
  if handlers.isEmpty then [] else runHandlers event handlers

theorem runHandlers_eq_map (e : EventM) (hs : List Handler) :
    runHandlers e hs = hs.map (fun h =>
      ⟨h.name, match h.run e with | .ok _ => none | .error msg => some msg⟩) := by
  induction hs with
  | nil => rfl
  | cons h rest ih =>
    cases hrun : h.run e <;> simp [runHandlers, hrun, ih]

/--
Claim C3: dispatch on an event whose type has no registered handlers
returns without invoking anything; otherwise it invokes each registered
handler sequentially and records, in registration order, the outcome of
every handler — an exception (an .error outcome) is caught and logged
in the trace, does not prevent any later registered handler of the same
event type from appearing in the trace, and never propagates (dispatch
totally returns the trace).  The first conjunct gives the full trace,
the second that the invoked handler identities are exactly the
registered ones in order, failures included.
-/
theorem dispatch_fault_isolation (reg : Registry) (event : EventM) :
    (dispatch reg event = (handlersFor reg event.etype).map (fun h =>
      ⟨h.name, match h.run event with | .ok _ => none | .error msg => some msg⟩)) ∧
    ((dispatch reg event).map (fun r => r.handler) =
      (handlersFor reg event.etype).map (fun h => h.name)) := by
  have hmain : dispatch reg event = (handlersFor reg event.etype).map (fun h =>
      ⟨h.name, match h.run event with | .ok _ => none | .error msg => some msg⟩) := by
    unfold dispatch
    cases hcase : handlersFor reg event.etype with
    | nil => simp
    | cons h rest => simp [runHandlers_eq_map]
  refine ⟨hmain, ?_⟩
  rw [hmain]
  simp

/-! ## Completion handlers (handlers.award_points, handlers.check_streaks) -/

/-- The fields of HabitCompletedEvent the handlers read. -/
structure HCEvent where
  user_id : Nat
  habit_id : Nat
  streak_count : Nat
deriving DecidableEq

/-- BASE_POINTS_COMPLETION["base_points"]. -/
def base_points : Nat := 10

/--
BASE_POINTS_COMPLETION["streak_multiplier"]: tier threshold to
multiplier.  The Python values are the floats 2.0, 5.0 and 10.0; every
product with the base 10 is an exact small integer, so the table is
modelled over the naturals.
-/
def streak_multiplier : List (Nat × Nat) := [(7, 2), (30, 5), (100, 10)]

/-- The points computation of award_points (the value passed to update_points). -/
def award_points_delta (streaks : Nat) : Nat :=
  if streaks ≥ 100 then base_points * ((List.lookup 100 streak_multiplier).getD 0)
  else if streaks ≥ 30 then base_points * ((List.lookup 30 streak_multiplier).getD 0)
  else if streaks ≥ 7 then base_points * ((List.lookup 7 streak_multiplier).getD 0)
  else base_points

/-- The external call update_points(user_id, count) issued by award_points. -/
structure UpdatePointsCall where
  user_id : Nat
  delta : Nat
deriving DecidableEq

/-- award_points from src/core/events/handlers.py, as the update_points call it issues. -/
def award_points (event : HCEvent) : UpdatePointsCall :=
  ⟨event.user_id, award_points_delta event.streak_count⟩

/--
Claim C7: award_points is a pure function of the streak_count of the
event (first conjunct: two events with equal streak_count produce equal
deltas), the delta equals base 10 times the multiplier of the first
matching tier top-down (second conjunct), and the deltas at streak
counts 6, 7, 29, 30, 99 and 100 are 10, 20, 20, 50, 50 and 100 points
(third conjunct).
-/
theorem award_points_spec :
    (∀ e1 e2 : HCEvent, e1.streak_count = e2.streak_count →
      (award_points e1).delta = (award_points e2).delta) ∧
    (∀ e : HCEvent, (award_points e).delta = base_points *
      (if e.streak_count ≥ 100 then 10
       else if e.streak_count ≥ 30 then 5
       else if e.streak_count ≥ 7 then 2
       else 1)) ∧
    (award_points_delta 6 = 10 ∧ award_points_delta 7 = 20 ∧
     award_points_delta 29 = 20 ∧ award_points_delta 30 = 50 ∧
     award_points_delta 99 = 50 ∧ award_points_delta 100 = 100) := by
  refine ⟨?_, ?_, by decide⟩
  · intro e1 e2 h
    simp [award_points, award_points_delta, h]
  · intro e
    simp [award_points, award_points_delta, streak_multiplier, base_points, List.lookup]

/--
Witness for C7: two distinct events sharing streak_count 7 get the same
delta, and that delta follows the tier formula.
-/
theorem award_points_spec_witness :
    (award_points ⟨1, 2, 7⟩).delta = (award_points ⟨3, 4, 7⟩).delta ∧
    (award_points ⟨1, 2, 7⟩).delta = base_points *
      (if (7 : Nat) ≥ 100 then 10 else if (7 : Nat) ≥ 30 then 5
       else if (7 : Nat) ≥ 7 then 2 else 1) := by
  exact ⟨award_points_spec.1 ⟨1, 2, 7⟩ ⟨3, 4, 7⟩ rfl, award_points_spec.2.1 ⟨1, 2, 7⟩⟩

/-- The fixed milestone table of handlers._check_milestone. -/
def milestones : List (Nat × String) :=
  [(1, "TEST STREAK"), (7, "1 Week Streak"), (30, "1 Month Streak"), (100, "100 Days Streak")]

/-- _check_milestone: milestones.get(streak, "") — exact-equality lookup. -/
def check_milestone (streak : Nat) : String :=
  (List.lookup streak milestones).getD ""

/--
The external effects of one check_streaks invocation: the put_streak
call, when issued, and the achievement_type of the recursively
dispatched AchievementUnlockedEvent, when one is synthesized.
-/
structure CheckStreaksEffects where
  put_streak_call : Option (Nat × Nat × Nat)
  dispatched_achievement : Option String
deriving DecidableEq

/--
check_streaks from src/core/events/handlers.py.  completions is the
date list (most recent first) returned by get_completions_by_habit for
the habit of the event; the streak is recomputed, persisted via
put_streak only when it exceeds event.streak_count, and a milestone hit
(a non-empty _check_milestone result) dispatches an achievement event.
-/
def check_streaks (completions : List Int) (event : HCEvent) : CheckStreaksEffects :=
  let streak := check_habit_consecutive_days completions
  let milestone := check_milestone streak
  { put_streak_call :=
      if streak > event.streak_count then some (event.user_id, event.habit_id, streak) else none
    dispatched_achievement :=
      if milestone = "" then none else some milestone }

theorem check_milestone_ne_iff (s : Nat) :
    check_milestone s ≠ "" ↔ (s = 1 ∨ s = 7 ∨ s = 30 ∨ s = 100) := by
  unfold check_milestone milestones
  simp only [List.lookup]
  repeat' split
  all_goals simp_all

/--
Claim C8: for every HabitCompletedEvent, check_streaks issues
put_streak if and only if the freshly computed streak strictly exceeds
event.streak_count (and then with arguments (user_id, habit_id,
streak)), and it dispatches an AchievementUnlockedEvent if and only if
the computed streak is exactly equal to one of the keys 1, 7, 30, 100
of the fixed milestone table — never a threshold match.
-/
theorem check_streaks_spec (completions : List Int) (event : HCEvent) :
    ((check_streaks completions event).put_streak_call ≠ none ↔
      check_habit_consecutive_days completions > event.streak_count) ∧
    ((check_streaks completions event).put_streak_call = none ∨
      (check_streaks completions event).put_streak_call =
        some (event.user_id, event.habit_id, check_habit_consecutive_days completions)) ∧
    ((check_streaks completions event).dispatched_achievement ≠ none ↔
      (check_habit_consecutive_days completions = 1 ∨
       check_habit_consecutive_days completions = 7 ∨
       check_habit_consecutive_days completions = 30 ∨
       check_habit_consecutive_days completions = 100)) := by
  refine ⟨?_, ?_, ?_⟩
  · by_cases h : check_habit_consecutive_days completions > event.streak_count <;>
      simp [check_streaks, h]
  · by_cases h : check_habit_consecutive_days completions > event.streak_count <;>
      simp [check_streaks, h]
  · rw [← check_milestone_ne_iff]
    by_cases h : check_milestone (check_habit_consecutive_days completions) = "" <;>
      simp [check_streaks, h]

/-! ## Queue-message validation (worker.parse_message) -/

/-- JSON values, the possible results of json.loads on the message body. -/
inductive Json where
  | null
  | bool (b : Bool)
  | num (n : Int)
  | str (s : String)
  | arr (elems : List Json)
  | obj (fields : List (String × Json))

/--
Python truthiness of a decoded JSON value: None, False, 0, the empty
string, the empty list and the empty dict are falsy.
-/
def truthy : Json → Bool
  | .null => false
  | .bool b => b
  | .num n => n != 0
  | .str s => s != ""
  | .arr elems => !elems.isEmpty
  | .obj fields => !fields.isEmpty

/-- Key lookup in the fields of a decoded JSON object (dict access). -/
def jsonLookup (fields : List (String × Json)) (k : String) : Option Json :=
  match fields with
  | [] => none
  | (k2, v) :: rest => if k2 = k then some v else jsonLookup rest k

/--
The Python expression "user_id" in body.  For a dict it is key
membership, for a string substring containment, for a list element
membership (an element can only equal the string "user_id" if it is
that string); for the remaining truthy values (numbers, True) the
operator raises TypeError, modelled as none.
-/
def json_contains_user_id : Json → Option Bool
  | .obj fields => some (jsonLookup fields "user_id").isSome
  | .str s => some (List.isPrefixOf "user_id".data s.data ||
      (s.data.tails.any (fun t => List.isPrefixOf "user_id".data t)))
  | .arr elems => some (elems.any (fun j => match j with | .str t => t = "user_id" | _ => false))
  | _ => none

/--
The Python subscript body["user_id"].  Defined for a dict (the key is
present when this is evaluated); any other base type raises TypeError,
modelled as none.
-/
def json_getitem_user_id : Json → Option Json
  | .obj fields => jsonLookup fields "user_id"
  | _ => none

/-- A raised Python exception: ValueError with its message, or TypeError. -/
inductive PyErr where
  | valueError (msg : String)
  | typeError
deriving DecidableEq

/--
The Body field of the queue message as json.loads sees it: either a
value on which json.loads raises (TypeError for a non-string,
json.JSONDecodeError for a malformed string), or the decoded JSON.
-/
inductive BodyRaw where
  | notJson
  | decoded (j : Json)

/--
A raw SQS message, reduced to the two fields parse_message reads:
body is none when the message has no Body key, receiptHandle is none
when it has no ReceiptHandle key.
-/
structure SqsMessage where
  body : Option BodyRaw
  receiptHandle : Option String

def errMissingBody : String := "Message missing \x27Body\x27 field"

def errMissingHandle : String := "Message missing \x27ReceiptHandle\x27 field"

def errNotJson : String := "Message body is not valid JSON"

def errUserIdMissing : String := "user_id missing in message body"

def errUserIdNotString : String := "user_id must be a string"

def errUserIdNotUUID : String := "user_id must be a valid UUID string"

/-- True for the characters the Python int(_, 16) conversion accepts as hex digits. -/
def isHexDigit (c : Char) : Bool :=
  (48 ≤ c.toNat && c.toNat ≤ 57) || (65 ≤ c.toNat && c.toNat ≤ 70) ||
    (97 ≤ c.toNat && c.toNat ≤ 102)

/-- Value of a hex digit character. -/
def hexDigitVal (c : Char) : Nat :=
  if c.toNat ≤ 57 then c.toNat - 48 else if c.toNat ≤ 70 then c.toNat - 55 else c.toNat - 87

/--
Removal of every occurrence of a pattern from a character list
(Python str.replace with an empty replacement), with explicit fuel so
the recursion is structural; each step consumes at least one character,
so fuel equal to the list length suffices.
-/
def removeAllFuel (pat : List Char) : Nat → List Char → List Char
  | 0, l => l
  | _ + 1, [] => []
  | fuel + 1, c :: rest =>
    if pat ≠ [] ∧ List.isPrefixOf pat (c :: rest) then
      removeAllFuel pat fuel (List.drop (pat.length - 1) rest)
    else c :: removeAllFuel pat fuel rest

/-- str.replace(pat, "") on a character list. -/
def removeAll (pat : List Char) (l : List Char) : List Char :=
  removeAllFuel pat l.length l

/-- Python str.strip applied with the brace characters (strip of leading and trailing braces). -/
def pyStripBraces (l : List Char) : List Char :=
  ((l.dropWhile (fun c => c.toNat == 123 || c.toNat == 125)).reverse.dropWhile
    (fun c => c.toNat == 123 || c.toNat == 125)).reverse

/--
The uuid.UUID(hex) constructor of the Python standard library (an
external collaborator of parse_message), on a string argument: remove
any urn: and uuid: markers and the dashes, strip braces, and accept
exactly 32 hex digits, whose value is the UUID.
-/
def uuid_of_string (s : String) : Option Nat :=
  let cs := removeAll [Char.ofNat 45]
    (pyStripBraces (removeAll "uuid:".data (removeAll "urn:".data s.data)))
  if cs.length == 32 && cs.all isHexDigit then
    some (cs.foldl (fun acc c => 16 * acc + hexDigitVal c) 0)
  else none

/--
parse_message from src/infrastructure/aws/worker.py.  The checks run in
source order: Body presence, ReceiptHandle presence, JSON decoding (a
TypeError or json.JSONDecodeError is caught and re-raised as the
invalid-JSON ValueError), the emptiness check on the decoded body
(whose ValueError is raised inside the same try block but is not among
the caught exception types, so it propagates with the missing-Body
message), user_id presence and truthiness, the isinstance string check,
and the UUID syntax check.
-/
def parse_message (message : SqsMessage) : Except PyErr (Nat × String) :=
  match message.body with
  | none => .error (.valueError errMissingBody)
  | some raw =>
    match message.receiptHandle with
    | none => .error (.valueError errMissingHandle)
    | some handle =>
      match raw with
      | .notJson => .error (.valueError errNotJson)
      | .decoded body =>
        if truthy body then
          match json_contains_user_id body with
          | none => .error .typeError
          | some contained =>
            if contained then
              match json_getitem_user_id body with
              | none => .error .typeError
              | some v =>
                if truthy v then
                  match v with
                  | .str s =>
                    match uuid_of_string s with
                    | none => .error (.valueError errUserIdNotUUID)
                    | some u => .ok (u, handle)
                  | _ => .error (.valueError errUserIdNotString)
                else .error (.valueError errUserIdMissing)
            else .error (.valueError errUserIdMissing)
        else .error (.valueError errMissingBody)

/--
Claim C5: parse_message maps every well-formed message (a decoded JSON
object with a non-empty string user_id that is a syntactically valid
UUID, plus an acknowledgment handle) to the pair (UUID, handle); it
validates in order — Body presence (checked before the handle, second
conjunct), ReceiptHandle presence (checked before JSON validity, third
conjunct), JSON validity, user_id presence and non-emptiness, UUID
syntax — and the five malformed variants raise the five pairwise
distinct human-readable errors (last conjunct).
-/
theorem parse_message_spec :
    (∀ (fields : List (String × Json)) (s handle : String) (u : Nat),
      jsonLookup fields "user_id" = some (.str s) → s ≠ "" → uuid_of_string s = some u →
      parse_message ⟨some (.decoded (.obj fields)), some handle⟩ = .ok (u, handle)) ∧
    (∀ rh : Option String,
      parse_message ⟨none, rh⟩ = .error (.valueError errMissingBody)) ∧
    (∀ raw : BodyRaw,
      parse_message ⟨some raw, none⟩ = .error (.valueError errMissingHandle)) ∧
    (∀ handle : String,
      parse_message ⟨some .notJson, some handle⟩ = .error (.valueError errNotJson)) ∧
    (∀ (fields : List (String × Json)) (handle : String), fields ≠ [] →
      (jsonLookup fields "user_id" = none ∨
        (∃ v, jsonLookup fields "user_id" = some v ∧ truthy v = false)) →
      parse_message ⟨some (.decoded (.obj fields)), some handle⟩ =
        .error (.valueError errUserIdMissing)) ∧
    (∀ (fields : List (String × Json)) (s handle : String),
      jsonLookup fields "user_id" = some (.str s) → s ≠ "" → uuid_of_string s = none →
      parse_message ⟨some (.decoded (.obj fields)), some handle⟩ =
        .error (.valueError errUserIdNotUUID)) ∧
    [errMissingBody, errMissingHandle, errNotJson, errUserIdMissing,
      errUserIdNotUUID].Nodup := by
  refine ⟨?_, fun rh => rfl, fun raw => rfl, fun handle => rfl, ?_, ?_, by decide⟩
  · intro fields s handle u hlookup hs hu
    match fields with
    | [] => simp [jsonLookup] at hlookup
    | f :: rest =>
      simp [parse_message, truthy, json_contains_user_id, json_getitem_user_id,
        hlookup, hs, hu]
  · intro fields handle hne hcase
    match fields with
    | f :: rest =>
      rcases hcase with hnone | ⟨v, hv, hfalsy⟩
      · simp [parse_message, truthy, json_contains_user_id, hnone]
      · have hfalsy2 := hfalsy
        simp only [truthy] at hfalsy2
        simp [parse_message, truthy, json_contains_user_id, json_getitem_user_id,
          hv, hfalsy2]
  · intro fields s handle hlookup hs hu
    match fields with
    | [] => simp [jsonLookup] at hlookup
    | f :: rest =>
      simp [parse_message, truthy, json_contains_user_id, json_getitem_user_id,
        hlookup, hs, hu]

/--
Witness for C5: the well-formed message with the nil UUID round-trips
to (1, handle), and concrete messages of the five malformed variants
produce the five distinct errors.
-/
theorem parse_message_spec_witness :
    parse_message ⟨some (.decoded (.obj
        [("user_id", .str "00000000-0000-0000-0000-000000000001")])), some "rh"⟩ =
      .ok (1, "rh") ∧
    parse_message ⟨none, none⟩ = .error (.valueError errMissingBody) ∧
    parse_message ⟨some .notJson, none⟩ = .error (.valueError errMissingHandle) ∧
    parse_message ⟨some .notJson, some "rh"⟩ = .error (.valueError errNotJson) ∧
    parse_message ⟨some (.decoded (.obj [("user_id", .str "")])), some "rh"⟩ =
      .error (.valueError errUserIdMissing) ∧
    parse_message ⟨some (.decoded (.obj [("user_id", .str "123")])), some "rh"⟩ =
      .error (.valueError errUserIdNotUUID) := by
  refine ⟨?_, ?_, ?_, ?_, ?_, ?_⟩
  · exact parse_message_spec.1 [("user_id", .str "00000000-0000-0000-0000-000000000001")]
      "00000000-0000-0000-0000-000000000001" "rh" 1 rfl (by decide) rfl
  · exact parse_message_spec.2.1 none
  · exact parse_message_spec.2.2.1 .notJson
  · exact parse_message_spec.2.2.2.1 "rh"
  · exact parse_message_spec.2.2.2.2.1 [("user_id", .str "")] "rh"
      (List.cons_ne_nil _ _) (Or.inr ⟨.str "", rfl, rfl⟩)
  · exact parse_message_spec.2.2.2.2.2.1 [("user_id", .str "123")] "123" "rh"
      rfl (by decide) rfl

/--
Claim C10: a message whose Body field is present and decodes to a falsy
JSON value (for example the empty object decoded from the body string
consisting of two braces) is rejected by parse_message with the
missing-Body error message — the same text as when Body is entirely
absent (second conjunct) and not the invalid-JSON error (third
conjunct): the ValueError raised by the emptiness check inside the
JSON-decoding try block is not among the caught exception types.
-/
theorem parse_message_falsy_body_error (handle : String) (j : Json)
    (hfalsy : truthy j = false) (rh : Option String) :
    parse_message ⟨some (.decoded j), some handle⟩ = .error (.valueError errMissingBody) ∧
    parse_message ⟨none, rh⟩ = .error (.valueError errMissingBody) ∧
    errMissingBody ≠ errNotJson := by
  refine ⟨?_, rfl, by decide⟩
  simp [parse_message, hfalsy]

/--
Witness for C10: the empty JSON object (decoded from a body string of
two braces) triggers the missing-Body error.
-/
theorem parse_message_falsy_body_error_witness :
    parse_message ⟨some (.decoded (.obj [])), some "rh"⟩ =
      .error (.valueError errMissingBody) ∧
    parse_message ⟨none, none⟩ = .error (.valueError errMissingBody) ∧
    errMissingBody ≠ errNotJson :=
  parse_message_falsy_body_error "rh" (.obj []) rfl none

/-! ## Weekly report builder (reports_service.ReportService) -/

/-- The fields of a HabitBase row that create_report reads. -/
structure HabitB where
  id : Nat
  name : String
deriving DecidableEq

/--
One completion row returned by get_completions_for_period for the week
window: the habit it belongs to and the abbreviated weekday label of
its completed_at (strftime with the abbreviated-weekday directive).
-/
structure CompletionRow where
  habit_id : Nat
  wday : String
deriving DecidableEq

/-- HabitStats of reports_service.py. -/
structure HabitStats where
  name : String
  total : Nat
  days : List String
  status : String
deriving DecidableEq

/-- WeeklyReport of reports_service.py, reduced to the fields the claims read. -/
structure WeeklyReport where
  user_id : Nat
  week_number : Nat
  habits : List HabitStats
deriving DecidableEq

/-- Insertion of a string into a sorted string list. -/
def insertSorted (x : String) : List String → List String
  | [] => [x]
  | y :: ys => if x ≤ y then x :: y :: ys else y :: insertSorted x ys

/-- Ascending sort of a string list. -/
def sortStrings (l : List String) : List String :=
  l.foldr insertSorted []

/--
Python sorted(set(...)) on strings: the distinct elements in ascending
order.
-/
def sortedSet (l : List String) : List String :=
  sortStrings l.dedup

/--
The completions of one habit, as create_report obtains them: the
completion list is pre-sorted by habit_id and grouped into a dict, and
the dict lookup for a habit id yields exactly the completions carrying
that id (logs_by_habit_id.get(habit.id, [])).
-/
def habitLogs (completed : List CompletionRow) (hid : Nat) : List CompletionRow :=
  completed.filter (fun c => c.habit_id == hid)

/--
create_report from reports_service.py: one HabitStats per active habit,
in habit order — total is the completion count, days the sorted set of
abbreviated weekday labels, status Missed exactly when there are no
logs.
-/
def create_report (active_habits : List HabitB) (completed_habits : List CompletionRow) :
    List HabitStats :=
  active_habits.map (fun habit =>
    let habit_logs := habitLogs completed_habits habit.id
    { name := habit.name
      total := habit_logs.length
      days := sortedSet (habit_logs.map (fun log => log.wday))
      status := if habit_logs.isEmpty then "Missed" else "Active" })

/--
calculate_weekly_stats from reports_service.py.  user_id is an Option
(the falsy check can only fire when no id is supplied), user_habits is
the result of get_all_habits_for_user, completed_habits the result of
get_completions_for_period over the week window [start, end], and
week_number the current ISO week.  The source also guards against falsy
week bounds; datetime values are always truthy in Python, so that guard
is dead and is omitted here.
-/
def calculate_weekly_stats (user_id : Option Nat) (week_number : Nat)
    (user_habits : List HabitB) (completed_habits : List CompletionRow) :
    Option WeeklyReport :=
  match user_id with
  | none => none
  | some uid =>
    if user_habits.isEmpty then none
    else
      let habits := create_report user_habits completed_habits
      let weekly_report : WeeklyReport := ⟨uid, week_number, habits⟩
      if habits.isEmpty || week_number == 0 then none
      else some weekly_report

/--
Claim C6: calculate_weekly_stats returns null for a user with zero
habits (first conjunct); otherwise (week numbers are ISO weeks, hence
non-zero) it returns a report with exactly one HabitStats per active
habit of the user — the habit count of the report equals the habit
count of the user — where the stat of habit i carries its name, a
total equal to its completion count in the window, days equal to the
ascending sorted set of abbreviated weekday labels of its completions,
status Missed exactly when it has zero completions in the window and
status Active exactly when it has at least one.
-/
theorem calculate_weekly_stats_spec (uid : Nat) (week_number : Nat)
    (user_habits : List HabitB) (completed : List CompletionRow) :
    (calculate_weekly_stats (some uid) week_number [] completed = none) ∧
    (user_habits ≠ [] → week_number ≠ 0 →
      ∃ r, calculate_weekly_stats (some uid) week_number user_habits completed = some r ∧
        r.habits.length = user_habits.length ∧
        ∀ i, (hi : i < user_habits.length) →
          ∃ st, r.habits[i]? = some st ∧
            st.name = user_habits[i].name ∧
            st.total = (habitLogs completed user_habits[i].id).length ∧
            st.days = sortedSet ((habitLogs completed user_habits[i].id).map
              (fun log => log.wday)) ∧
            (st.status = "Missed" ↔ habitLogs completed user_habits[i].id = []) ∧
            (st.status = "Active" ↔ habitLogs completed user_habits[i].id ≠ [])) := by
  constructor
  · rfl
  · intro hne hwn
    refine ⟨⟨uid, week_number, create_report user_habits completed⟩, ?_, ?_, ?_⟩
    · unfold calculate_weekly_stats
      have h1 : user_habits.isEmpty = false := by
        simpa [List.isEmpty_iff] using hne
      have h2 : (create_report user_habits completed).isEmpty = false := by
        simp [create_report, List.isEmpty_iff, List.map_eq_nil_iff]
        exact hne
      simp [h1, h2, hwn]
    · simp [create_report]
    · intro i hi
      refine ⟨⟨user_habits[i].name,
          (habitLogs completed user_habits[i].id).length,
          sortedSet ((habitLogs completed user_habits[i].id).map (fun log => log.wday)),
          if (habitLogs completed user_habits[i].id).isEmpty then "Missed" else "Active"⟩,
        ?_, rfl, rfl, rfl, ?_, ?_⟩
      · simp only [create_report]
        rw [List.getElem?_map]
        rw [List.getElem?_eq_getElem hi]
        rfl
      · by_cases hlog : habitLogs completed user_habits[i].id = [] <;>
          simp [hlog, List.isEmpty_iff]
      · by_cases hlog : habitLogs completed user_habits[i].id = [] <;>
          simp [hlog, List.isEmpty_iff]

/--
Witness for C6: a user with two habits, one completed once on a Monday
and one never completed, gets a two-entry report with statuses Active
and Missed.
-/
theorem calculate_weekly_stats_spec_witness :
    ∃ r, calculate_weekly_stats (some 1) 2 [⟨1, "water"⟩, ⟨2, "run"⟩] [⟨1, "Mon"⟩] =
        some r ∧
      r.habits.length = 2 ∧
      ∀ i, (hi : i < 2) →
        ∃ st, r.habits[i]? = some st ∧
          st.name = ([⟨1, "water"⟩, ⟨2, "run"⟩] : List HabitB)[i].name ∧
          st.total = (habitLogs [⟨1, "Mon"⟩] ([⟨1, "water"⟩, ⟨2, "run"⟩] :
            List HabitB)[i].id).length ∧
          st.days = sortedSet ((habitLogs [⟨1, "Mon"⟩] ([⟨1, "water"⟩, ⟨2, "run"⟩] :
            List HabitB)[i].id).map (fun log => log.wday)) ∧
          (st.status = "Missed" ↔ habitLogs [⟨1, "Mon"⟩] ([⟨1, "water"⟩, ⟨2, "run"⟩] :
            List HabitB)[i].id = []) ∧
          (st.status = "Active" ↔ habitLogs [⟨1, "Mon"⟩] ([⟨1, "water"⟩, ⟨2, "run"⟩] :
            List HabitB)[i].id ≠ []) :=
  (calculate_weekly_stats_spec 1 2 [⟨1, "water"⟩, ⟨2, "run"⟩] [⟨1, "Mon"⟩]).2
    (List.cons_ne_nil _ _) (by decide)

/-! ## PDF buffer handling (report_pdf.create_pdf_buffer and its consumers) -/

/-- An in-memory byte stream (io.BytesIO): contents and cursor position. -/
structure Buffer where
  data : List Nat
  pos : Nat
deriving DecidableEq

/-- Writing bytes to the stream advances the cursor past the written data. -/
def Buffer.write (b : Buffer) (bs : List Nat) : Buffer :=
  ⟨b.data ++ bs, b.pos + bs.length⟩

/-- buffer.seek(n): move the cursor. -/
def Buffer.seek (b : Buffer) (n : Nat) : Buffer :=
  ⟨b.data, n⟩

/-- buffer.read() from the current cursor to end-of-stream. -/
def Buffer.readAll (b : Buffer) : List Nat :=
  b.data.drop b.pos

/--
create_pdf_buffer from src/infrastructure/pdf/report_pdf.py: allocate a
fresh BytesIO, let the external HTML-to-PDF renderer (write_pdf, here a
parameter) write its output into it, and return the buffer as is — the
source performs no seek before returning.
-/
def create_pdf_buffer (write_pdf : String → List Nat) (html_string : String) : Buffer :=
  Buffer.write ⟨[], 0⟩ (write_pdf html_string)

/--
The bytes the object-store upload reads from the buffer:
upload_file_to_bucket (s3_client.py) performs buffer.seek(0) and then
hands the buffer to the uploader, which reads from the cursor.
-/
def upload_read (buffer : Buffer) : List Nat :=
  (buffer.seek 0).readAll

/--
The bytes the email client attaches: _add_attachment (email_client.py)
performs attachment.seek(0) followed by attachment.read().
-/
def add_attachment_read (attachment : Buffer) : List Nat :=
  (attachment.seek 0).readAll

/--
Counterexample to C4: create_pdf_buffer does not reset the read
position of the buffer it returns — for a four-byte renderer output the
returned position is 4, not 0.  The write leaves the cursor at
end-of-stream and the source returns the buffer without a seek.
-/
theorem create_pdf_buffer_position_not_reset :
    ¬((create_pdf_buffer (fun _ => [37, 80, 68, 70]) "<html/>").pos = 0) := by
  decide

/--
Claim C4 as amended: create_pdf_buffer returns the in-memory PDF buffer
with its read position at end-of-stream (the length of the written
data), and each downstream consumer itself resets the position to the
start before reading — the object-store upload seeks to 0 before
uploading and the email attachment builder seeks to 0 before reading —
so both consumers read the full PDF bytes.
-/
theorem create_pdf_buffer_consumer_side_reset (write_pdf : String → List Nat)
    (html_string : String) :
    (create_pdf_buffer write_pdf html_string).pos = (write_pdf html_string).length ∧
    upload_read (create_pdf_buffer write_pdf html_string) = write_pdf html_string ∧
    add_attachment_read (create_pdf_buffer write_pdf html_string) = write_pdf html_string := by
  refine ⟨?_, ?_, ?_⟩ <;>
    simp [create_pdf_buffer, Buffer.write, Buffer.seek, Buffer.readAll,
      upload_read, add_attachment_read]

/-! ## Per-message worker pipeline (worker.process_message) -/

/--
Outcomes of the external stages one process_message call runs through,
in pipeline order.  Errors model raised exceptions.  The object-store
upload stage is special: upload_file_to_bucket (s3_client.py) catches
ClientError itself and returns False instead of raising, so its failure
mode is the boolean s3ClientError, not an error result.
-/
structure WorkerEnv where
  reportResult : Except String (Option Nat)
  renderResult : Except String String
  pdfResult : Except String (List Nat)
  s3ClientError : Bool
  userResult : Except String (Option String)
  emailResult : Except String Unit

/-- Which externally visible pipeline effects a process_message call performed. -/
structure PipelineTrace where
  uploadReturned : Option Bool
  emailSent : Bool
  deleted : Bool
deriving DecidableEq

/--
process_message from src/infrastructure/aws/worker.py, after a
successful parse: compute the weekly report (a null report returns
early without deleting), render the HTML, build the PDF buffer, call
upload_file_to_bucket — whose boolean result the source ignores — look
up the user (raising when absent), send the email, and only then delete
the message.  A raised exception at any stage is logged and re-raised,
ending the pipeline for this message.
-/
def process_message (env : WorkerEnv) : Except String Unit × PipelineTrace :=
  match env.reportResult with
  | .error e => (.error e, ⟨none, false, false⟩)
  | .ok none => (.ok (), ⟨none, false, false⟩)
  | .ok (some _report) =>
    match env.renderResult with
    | .error e => (.error e, ⟨none, false, false⟩)
    | .ok _html =>
      match env.pdfResult with
      | .error e => (.error e, ⟨none, false, false⟩)
      | .ok _pdf =>
        let uploaded := !env.s3ClientError
        match env.userResult with
        | .error e => (.error e, ⟨some uploaded, false, false⟩)
        | .ok none => (.error "User not found in database", ⟨some uploaded, false, false⟩)
        | .ok (some _user) =>
          match env.emailResult with
          | .error e => (.error e, ⟨some uploaded, false, false⟩)
          | .ok _ => (.ok (), ⟨some uploaded, true, true⟩)

/--
Claim C1 is contradicted by the code at the upload stage: with every
other stage succeeding and the object-store upload failing (ClientError
inside upload_file_to_bucket, surfaced as a False return that
process_message ignores), the pipeline still sends the email and
deletes the message, and the call returns without error (first group of
conjuncts).  The remaining stages do abort as the claim says: a
rendering failure stops everything downstream, and an email failure
prevents the delete (second group).
-/
theorem process_message_upload_failure_not_aborting :
    (process_message ⟨.ok (some 7), .ok "<html/>", .ok [37, 80, 68, 70], true,
        .ok (some "user"), .ok ()⟩).2.uploadReturned = some false ∧
    (process_message ⟨.ok (some 7), .ok "<html/>", .ok [37, 80, 68, 70], true,
        .ok (some "user"), .ok ()⟩).2.emailSent = true ∧
    (process_message ⟨.ok (some 7), .ok "<html/>", .ok [37, 80, 68, 70], true,
        .ok (some "user"), .ok ()⟩).2.deleted = true ∧
    (process_message ⟨.ok (some 7), .ok "<html/>", .ok [37, 80, 68, 70], true,
        .ok (some "user"), .ok ()⟩).1 = .ok () ∧
    (process_message ⟨.ok (some 7), .error "render failure", .ok [37, 80, 68, 70], false,
        .ok (some "user"), .ok ()⟩).2 = ⟨none, false, false⟩ ∧
    (process_message ⟨.ok (some 7), .ok "<html/>", .ok [37, 80, 68, 70], false,
        .ok (some "user"), .error "ses failure"⟩).2.deleted = false :=
  ⟨rfl, rfl, rfl, rfl, rfl, rfl⟩
